import Mathlib

/-!
Verification development for the `rats_tls` binding module
(`src/rats_tls/mod.rs`) of verdictd: the session-handle lifecycle
(`RatsTls::new` / `negotiate` / `receive` / `transmit` / `Drop`), the
handshake verification callback (`RatsTls::callback`, `sgx_callback`,
`csv_callback`), and the base64 / JSON plumbing they use.

Bytes are modelled as `Nat` with explicit `< 256` bounds; native error
codes as `Nat`; fallible paths as `Option` / `Except`.  External
collaborators that live outside this module (the OPA decision engine
`make_decision`, the JSON parser) are passed in as oracle parameters, so
theorems quantify over every behaviour they can have.
-/

/-! ## Base64 (the `base64::encode` / `base64::decode` pair, standard
alphabet with `=` padding) -/

/-- Modelled from the spec: the canonical transport-safe encoding of
binary measurements is base64 (the `base64` crate is outside this
repository).  The standard alphabet, position `s` for sextet `s`. -/
def b64chars : List Char :=
  "ABCDEFGHIJKLMNOPQRSTUVWXYZabcdefghijklmnopqrstuvwxyz0123456789+/".data

def sextetToChar (s : Nat) : Char :=
  b64chars.getD s 'A'

/-- Modelled from the spec: base64 decoding table (inverse of the
standard alphabet), `none` on any character outside it. -/
def charToSextet (c : Char) : Option Nat :=
  let n := c.toNat
  if 65 ≤ n ∧ n ≤ 90 then some (n - 65)
  else if 97 ≤ n ∧ n ≤ 122 then some (n - 97 + 26)
  else if 48 ≤ n ∧ n ≤ 57 then some (n - 48 + 52)
  else if n = 43 then some 62
  else if n = 47 then some 63
  else none

/-- Modelled from the spec: `base64::encode` on a byte list, three bytes
per four output characters, `=`-padded final chunk. -/
def encodeB64 : List Nat → List Char
  | [] => []
  | [a] => [sextetToChar (a / 4), sextetToChar (a % 4 * 16), '=', '=']
  | [a, b] => [sextetToChar (a / 4), sextetToChar (a % 4 * 16 + b / 16),
      sextetToChar (b % 16 * 4), '=']
  | a :: b :: c :: rest =>
      sextetToChar (a / 4) :: sextetToChar (a % 4 * 16 + b / 16) ::
      sextetToChar (b % 16 * 4 + c / 64) :: sextetToChar (c % 64) :: encodeB64 rest

/-- Modelled from the spec: `base64::decode`, four characters per three
bytes, accepting `=` padding only at the very end. -/
def decodeB64 : List Char → Option (List Nat)
  | [] => some []
  | c0 :: c1 :: c2 :: c3 :: rest =>
    match charToSextet c0, charToSextet c1 with
    | some s0, some s1 =>
      if c2 = '=' then
        if c3 = '=' ∧ rest = [] then some [s0 * 4 + s1 / 16] else none
      else
        match charToSextet c2 with
        | some s2 =>
          if c3 = '=' then
            if rest = [] then some [s0 * 4 + s1 / 16, s1 % 16 * 16 + s2 / 4]
            else none
          else
            match charToSextet c3 with
            | some s3 =>
              match decodeB64 rest with
              | some bs =>
                  some ((s0 * 4 + s1 / 16) :: (s1 % 16 * 16 + s2 / 4) ::
                    (s2 % 4 * 64 + s3) :: bs)
              | none => none
            | none => none
        | none => none
    | _, _ => none
  | _ => none

def encodeB64str (bs : List Nat) : String := String.mk (encodeB64 bs)

def decodeB64str (s : String) : Option (List Nat) := decodeB64 s.data

/-! ## JSON values (the fragment of `serde_json::Value` the module uses) -/

/-- Modelled from the spec: the decision engine speaks JSON documents
(the `serde_json` crate is outside this repository).  Only the shapes
this module produces or inspects are needed. -/
inductive Json where
  | null : Json
  | bool (b : Bool) : Json
  | num (n : Nat) : Json
  | str (s : String) : Json
  | obj (fields : List (String × Json)) : Json

/-- Field lookup mirroring `serde_json` string indexing `res["key"]`:
the field's value in an object, `Json.null` for a missing key or a
non-object. -/
def Json.getField : Json → String → Json
  | .obj fs, k => ((fs.find? (fun p => p.1 = k)).map Prod.snd).getD .null
  | _, _ => .null

/-- Equality test against JSON `true`, mirroring `res["allow"] == true`
on a `serde_json::Value` (only `Bool(true)` compares equal). -/
def Json.isTrue : Json → Bool
  | .bool true => true
  | _ => false

mutual

/-- Compact serialization mirroring `serde_json::Value::to_string` on
the documents this module builds (keys are emitted in order; the json
macro inserts `mrEnclave`, `mrSigner`, `productId`, `svn` and `measure`
already in `serde_json`'s sorted-map order). -/
def Json.toStr : Json → String
  | .null => "null"
  | .bool b => cond b "true" "false"
  | .num n => Nat.repr n
  | .str s => "\"" ++ s ++ "\""
  | .obj fs => "\x7b" ++ Json.fieldsToStr fs ++ "\x7d"

def Json.fieldsToStr : List (String × Json) → String
  | [] => ""
  | [(k, v)] => "\"" ++ k ++ "\":" ++ Json.toStr v
  | (k, v) :: fs => "\"" ++ k ++ "\":" ++ Json.toStr v ++ "," ++ Json.fieldsToStr fs

end

/-! ## Constants from the generated `ffi` bindings and the `resources`
module (neither is under `src/`) -/

/-- Modelled from the spec: the native "no error" code (`ffi.rs` is not
in the sources).  Every other numeric code denotes a distinct failure. -/
def RATS_TLS_ERR_NONE : Nat := 0

/-- Modelled from the spec: fixed API-version default written by
`new` (exact numeric value immaterial to the claims). -/
def RATS_TLS_API_VERSION_DEFAULT : Nat := 1

/-- Modelled from the spec: fixed debug log-level written by `new`. -/
def RATS_TLS_LOG_LEVEL_DEBUG : Nat := 1

/-- Modelled from the spec: default certificate algorithm written by
`new`. -/
def RATS_TLS_CERT_ALGO_DEFAULT : Nat := 0

/-- Modelled from the spec: mutual-authentication bit of the flags
bitfield. -/
def RATS_TLS_CONF_FLAGS_MUTUAL : Nat := 1

/-- Modelled from the spec: server-role bit of the flags bitfield. -/
def RATS_TLS_CONF_FLAGS_SERVER : Nat := 2

/-- Modelled from the spec: evidence type tag for SGX-ECDSA evidence
(`enclave_evidence_type_t` lives in the absent `ffi.rs`; only
distinctness of the two tags matters). -/
def enclave_evidence_type_t_SGX_ECDSA : Nat := 0

/-- Modelled from the spec: evidence type tag for CSV evidence. -/
def enclave_evidence_type_t_CSV : Nat := 1

/-- Modelled from the spec: fixed capacity of each string buffer of the
native configuration struct (`ffi.rs` is not in the sources; the spec
only fixes that the capacity is finite). -/
def confStrCap : Nat := 32

/-- Modelled from the spec: identifier of the SGX policy handed to the
decision engine (`resources::opa::OPA_POLICY_SGX`). -/
def OPA_POLICY_SGX : String := "sgxPolicy.rego"

/-- Modelled from the spec: identifier of the SGX dataset
(`resources::opa::OPA_DATA_SGX`). -/
def OPA_DATA_SGX : String := "sgxData"

/-- Modelled from the spec: identifier of the CSV policy
(`resources::opa::OPA_POLICY_CSV`). -/
def OPA_POLICY_CSV : String := "csvPolicy.rego"

/-- Modelled from the spec: identifier of the CSV dataset
(`resources::opa::OPA_DATA_CSV`). -/
def OPA_DATA_CSV : String := "csvData"

/-! ## The native configuration struct and `RatsTls::new` -/

/-- The `rats_tls_conf_t` struct as `new` uses it: four fixed-capacity
byte buffers plus the numeric fields the source assigns. -/
structure rats_tls_conf_t where
  api_version : Nat
  log_level : Nat
  tls_type : List Nat
  crypto_type : List Nat
  attester_type : List Nat
  verifier_type : List Nat
  cert_algo : Nat
  enclave_id : Nat
  flags : Nat
deriving DecidableEq

/-- `Default::default()` for the configuration struct: all numeric
fields zero, all buffers zero-filled at their fixed capacity. -/
def defaultConf : rats_tls_conf_t :=
  ⟨0, 0, List.replicate confStrCap 0, List.replicate confStrCap 0,
    List.replicate confStrCap 0, List.replicate confStrCap 0, 0, 0, 0⟩

/-- Execution of `conf.buf[..s.len()].copy_from_slice(s.as_bytes())`:
the first `s.length` bytes of `buf` are replaced, the rest kept. -/
def writeBuf (buf : List Nat) (s : List Nat) : List Nat :=
  s ++ buf.drop s.length

/-- One optional-string field of `new`: `None` leaves the buffer as it
is; `Some s` copies `s` into the buffer's prefix, and panics (`none`)
when `s` exceeds the buffer — `buf[..len]` is an out-of-range slice
index. -/
def setOptBuf (buf : List Nat) : Option (List Nat) → Option (List Nat)
  | none => some buf
  | some s => if s.length ≤ buf.length then some (writeBuf buf s) else none

/-- The configuration-building prefix of `RatsTls::new` (source lines
81–103): defaults, fixed api version and log level, the four optional
string copies in source order, cert algo, enclave id, and the two flag
bits.  `none` models the panic of an out-of-range buffer copy. -/
def buildConf (server : Bool) (enclave_id : Nat)
    (tls_type crypto attester verifier : Option (List Nat))
    (mutualAuth : Bool) : Option rats_tls_conf_t := do
  let tlsBuf ← setOptBuf defaultConf.tls_type tls_type
  let cryBuf ← setOptBuf defaultConf.crypto_type crypto
  let attBuf ← setOptBuf defaultConf.attester_type attester
  let verBuf ← setOptBuf defaultConf.verifier_type verifier
  let flags0 : Nat := 0
  let flags1 := if mutualAuth then flags0 ||| RATS_TLS_CONF_FLAGS_MUTUAL else flags0
  let flags2 := if server then flags1 ||| RATS_TLS_CONF_FLAGS_SERVER else flags1
  some ⟨RATS_TLS_API_VERSION_DEFAULT, RATS_TLS_LOG_LEVEL_DEBUG,
    tlsBuf, cryBuf, attBuf, verBuf,
    RATS_TLS_CERT_ALGO_DEFAULT, enclave_id, flags2⟩

/-- Native calls `new` can issue, in order of appearance in the source:
`rats_tls_init`, `rats_tls_set_verification_callback`,
`rats_tls_cleanup`. -/
inductive NativeCall where
  | init : NativeCall
  | set_cb : NativeCall
  | cleanup : NativeCall
deriving DecidableEq

/-- Outcome of `RatsTls::new`: a panic during configuration building, a
propagated native error code, or a constructed handle (carrying the
configuration it passed to `rats_tls_init`). -/
inductive NewResult where
  | panic : NewResult
  | err (code : Nat) : NewResult
  | ok (conf : rats_tls_conf_t) : NewResult
deriving DecidableEq

/-- `RatsTls::new` with its sequence of native calls made explicit.
`errInit` and `errSetCb` are the codes the two native calls would
return.  The source checks `rats_tls_init`'s code against
`RATS_TLS_ERR_NONE` and returns it on mismatch; then checks
`rats_tls_set_verification_callback`'s code and returns it on mismatch;
no branch of `new` ever issues `rats_tls_cleanup`. -/
def newTrace (errInit errSetCb : Nat) (server : Bool) (enclave_id : Nat)
    (tls_type crypto attester verifier : Option (List Nat))
    (mutualAuth : Bool) : NewResult × List NativeCall :=
  match buildConf server enclave_id tls_type crypto attester verifier mutualAuth with
  | none => (.panic, [])
  | some conf =>
    if errInit ≠ RATS_TLS_ERR_NONE then (.err errInit, [.init])
    else if errSetCb = RATS_TLS_ERR_NONE then (.ok conf, [.init, .set_cb])
    else (.err errSetCb, [.init, .set_cb])

/-! ## `negotiate`, `receive`, `transmit` -/

/-- `RatsTls::negotiate`: `err` is the code `rats_tls_negotiate`
returns; `Ok(())` exactly on `RATS_TLS_ERR_NONE`, the code itself
otherwise. -/
def negotiate (err : Nat) : Except Nat Unit :=
  if err = RATS_TLS_ERR_NONE then .ok () else .error err

/-- `RatsTls::receive`: `err` and `lenOut` are the code and updated
length `rats_tls_receive` produces; `Ok(len)` exactly on
`RATS_TLS_ERR_NONE`, the code itself otherwise. -/
def receive (err : Nat) (lenOut : Nat) : Except Nat Nat :=
  if err = RATS_TLS_ERR_NONE then .ok lenOut else .error err

/-- `RatsTls::transmit`: `err` and `lenOut` are the code and updated
length `rats_tls_transmit` produces; `Ok(len)` exactly on
`RATS_TLS_ERR_NONE`, the code itself otherwise. -/
def transmit (err : Nat) (lenOut : Nat) : Except Nat Nat :=
  if err = RATS_TLS_ERR_NONE then .ok lenOut else .error err

/-! ## Handle ownership (`derive(Clone)` and `Drop`) -/

/-- The `RatsTls` handle: a wrapper around the non-null native context
pointer (`NonNull<rats_tls_handle>`), modelled by its address. -/
structure RatsTls where
  ptr : Nat
deriving DecidableEq

/-- The `#[derive(Clone)]` on `RatsTls`: cloning copies the wrapped
native pointer bitwise, yielding a second handle over the same native
context. -/
def cloneRatsTls (h : RatsTls) : RatsTls := h

/-- `Drop for RatsTls`: dropping a handle calls
`rats_tls_cleanup(self.as_ptr())`; dropping each handle in a list
yields this sequence of native pointers passed to `rats_tls_cleanup`. -/
def cleanupCallsOnDrop (hs : List RatsTls) : List Nat :=
  hs.map (fun h => h.ptr)

/-! ## Evidence and the verification callback -/

/-- `rtls_sgx_evidence_t`: the two 32-byte measurement buffers the
callback reads through `from_raw_parts(_, 32)`, plus the two integer
fields. -/
structure rtls_sgx_evidence_t where
  mr_enclave : List Nat
  mr_signer : List Nat
  product_id : Nat
  security_version : Nat

/-- `rtls_csv_evidence_t`: the 32-byte measurement buffer. -/
structure rtls_csv_evidence_t where
  measure : List Nat

/-- `rtls_evidence`: type tag plus the union of the two payloads (the
callback reads the member selected by the tag). -/
structure rtls_evidence where
  type_ : Nat
  sgx : rtls_sgx_evidence_t
  csv : rtls_csv_evidence_t

/-- Behaviour of `policy_engine::opa::opa_engine::make_decision`
(outside `src/`): an oracle from policy name, data name and serialized
input document to the engine's response string or an error. -/
abbrev MakeDecision := String → String → String → Except String String

/-- Behaviour of `serde_json::from_str` on the engine response (the
crate is outside this repository): an oracle from a string to its
parsed JSON document, `none` when parsing fails. -/
abbrev JsonParse := String → Option Json

/-- The Policy Input Document `sgx_callback` builds: base64 of the two
32-byte measurements, integer fields passed through. -/
def sgx_input (ev : rtls_sgx_evidence_t) : Json :=
  Json.obj [("mrEnclave", .str (encodeB64str (ev.mr_enclave.take 32))),
    ("mrSigner", .str (encodeB64str (ev.mr_signer.take 32))),
    ("productId", .num ev.product_id),
    ("svn", .num ev.security_version)]

/-- The Policy Input Document `csv_callback` builds: base64 of the
32-byte measurement. -/
def csv_input (ev : rtls_csv_evidence_t) : Json :=
  Json.obj [("measure", .str (encodeB64str (ev.measure.take 32)))]

/-- `RatsTls::sgx_callback`: build the input document, call
`make_decision`, parse the response, and demand `res["allow"] == true`;
each failure stage carries the source's error string. -/
def sgx_callback (md : MakeDecision) (parse : JsonParse)
    (ev : rtls_sgx_evidence_t) : Except String Unit :=
  match md OPA_POLICY_SGX OPA_DATA_SGX (Json.toStr (sgx_input ev)) with
  | .error e => .error ("make_decision error: " ++ e)
  | .ok res =>
    match parse res with
    | none => .error "Json unmashall failed"
    | some j =>
      if (j.getField "allow").isTrue then .ok ()
      else .error "decision is false"

/-- `RatsTls::csv_callback`: the CSV analogue of `sgx_callback`. -/
def csv_callback (md : MakeDecision) (parse : JsonParse)
    (ev : rtls_csv_evidence_t) : Except String Unit :=
  match md OPA_POLICY_CSV OPA_DATA_CSV (Json.toStr (csv_input ev)) with
  | .error e => .error ("make_decision error: " ++ e)
  | .ok res =>
    match parse res with
    | none => .error "Json unmashall failed"
    | some j =>
      if (j.getField "allow").isTrue then .ok ()
      else .error "decision is false"

/-- `RatsTls::callback`: dispatch on the evidence type tag — SGX-ECDSA
and CSV to their converters, anything else to `Err("Not implemented")` —
then reduce the result to the integer ABI signal: 1 on `Ok`, 0 on any
`Err`. -/
def callback (md : MakeDecision) (parse : JsonParse)
    (ev : rtls_evidence) : Int :=
  let res : Except String Unit :=
    if ev.type_ = enclave_evidence_type_t_SGX_ECDSA then
      sgx_callback md parse ev.sgx
    else if ev.type_ = enclave_evidence_type_t_CSV then
      csv_callback md parse ev.csv
    else .error "Not implemented"
  match res with
  | .ok _ => 1
  | .error _ => 0

/-- A call to `make_decision` together with the count of engine
invocations it represents (always one). -/
def countedCall (md : MakeDecision) (p d i : String) :
    Except String String × Nat :=
  (md p d i, 1)

/-- `sgx_callback` instrumented with the number of `make_decision`
invocations it performs. -/
def sgx_callbackT (md : MakeDecision) (parse : JsonParse)
    (ev : rtls_sgx_evidence_t) : Except String Unit × Nat :=
  match countedCall md OPA_POLICY_SGX OPA_DATA_SGX (Json.toStr (sgx_input ev)) with
  | (r, n) =>
    (match r with
     | .error e => .error ("make_decision error: " ++ e)
     | .ok res =>
       match parse res with
       | none => .error "Json unmashall failed"
       | some j =>
         if (j.getField "allow").isTrue then .ok ()
         else .error "decision is false", n)

/-- `csv_callback` instrumented with the number of `make_decision`
invocations it performs. -/
def csv_callbackT (md : MakeDecision) (parse : JsonParse)
    (ev : rtls_csv_evidence_t) : Except String Unit × Nat :=
  match countedCall md OPA_POLICY_CSV OPA_DATA_CSV (Json.toStr (csv_input ev)) with
  | (r, n) =>
    (match r with
     | .error e => .error ("make_decision error: " ++ e)
     | .ok res =>
       match parse res with
       | none => .error "Json unmashall failed"
       | some j =>
         if (j.getField "allow").isTrue then .ok ()
         else .error "decision is false", n)

/-- `RatsTls::callback` instrumented with the number of `make_decision`
invocations: the untaken union branches invoke nothing, and the
unsupported-type branch invokes nothing. -/
def callbackT (md : MakeDecision) (parse : JsonParse)
    (ev : rtls_evidence) : Int × Nat :=
  let rn : Except String Unit × Nat :=
    if ev.type_ = enclave_evidence_type_t_SGX_ECDSA then
      sgx_callbackT md parse ev.sgx
    else if ev.type_ = enclave_evidence_type_t_CSV then
      csv_callbackT md parse ev.csv
    else (.error "Not implemented", 0)
  ((match rn.1 with | .ok _ => 1 | .error _ => 0), rn.2)

/-- The successfully-parsed-allow condition on the SGX path: the engine
call on the SGX input document returned a response that parses to a
document whose `allow` field is the boolean `true`. -/
def allowPathSgx (md : MakeDecision) (parse : JsonParse)
    (ev : rtls_sgx_evidence_t) : Prop :=
  ∃ r j, md OPA_POLICY_SGX OPA_DATA_SGX (Json.toStr (sgx_input ev)) = .ok r ∧
    parse r = some j ∧ (j.getField "allow").isTrue = true

/-- The successfully-parsed-allow condition on the CSV path. -/
def allowPathCsv (md : MakeDecision) (parse : JsonParse)
    (ev : rtls_csv_evidence_t) : Prop :=
  ∃ r j, md OPA_POLICY_CSV OPA_DATA_CSV (Json.toStr (csv_input ev)) = .ok r ∧
    parse r = some j ∧ (j.getField "allow").isTrue = true

/-- The supported half of the evidence union, as the spec's Evidence
Model presents it. -/
inductive SupportedEvidence where
  | sgx (e : rtls_sgx_evidence_t) : SupportedEvidence
  | csv (e : rtls_csv_evidence_t) : SupportedEvidence

/-- The Policy Input Document of a supported evidence value: the
conversion each callback branch performs. -/
def buildInput : SupportedEvidence → Json
  | .sgx e => sgx_input e
  | .csv e => csv_input e

/-- Description of a buffer field after `new`'s optional copy: `None`
leaves the zero-filled default, `Some s` yields `s` followed by the
untouched zero tail. -/
def bufAfter : Option (List Nat) → List Nat
  | none => List.replicate confStrCap 0
  | some s => s ++ List.replicate (confStrCap - s.length) 0

/-- Fitting condition for an optional string field: absent, or no
longer than the buffer capacity. -/
def optFits : Option (List Nat) → Prop
  | none => True
  | some s => s.length ≤ confStrCap

instance : DecidablePred optFits := fun o => by
  unfold optFits
  cases o <;> infer_instance

/-- The decision-engine response on the verification path the record
actually takes: `callback`'s dispatch routes an SGX-ECDSA tag to the
`make_decision` call on the SGX input document and a CSV tag to the
call on the CSV input document; on any other tag no engine query is
issued and the path fails with the source's error string. -/
def pathEngineResponse (md : MakeDecision) (ev : rtls_evidence) :
    Except String String :=
  if ev.type_ = enclave_evidence_type_t_SGX_ECDSA then
    md OPA_POLICY_SGX OPA_DATA_SGX (Json.toStr (sgx_input ev.sgx))
  else if ev.type_ = enclave_evidence_type_t_CSV then
    md OPA_POLICY_CSV OPA_DATA_CSV (Json.toStr (csv_input ev.csv))
  else .error "Not implemented"

lemma charToSextet_table : ∀ s : Fin 64, charToSextet (sextetToChar s.val) = some s.val := by
  decide

lemma sextetToChar_ne_pad_table : ∀ s : Fin 64, sextetToChar s.val ≠ '=' := by
  decide

lemma charToSextet_sextetToChar {s : Nat} (h : s < 64) :
    charToSextet (sextetToChar s) = some s :=
  charToSextet_table ⟨s, h⟩

lemma sextetToChar_ne_pad {s : Nat} (h : s < 64) : sextetToChar s ≠ '=' :=
  sextetToChar_ne_pad_table ⟨s, h⟩

theorem decodeB64_encodeB64 :
    ∀ m : List Nat, (∀ x ∈ m, x < 256) → decodeB64 (encodeB64 m) = some m
  | [], _ => by simp [encodeB64, decodeB64]
  | [a], h => by
      have ha : a < 256 := h a (by simp)
      have e0 := charToSextet_sextetToChar (by omega : a / 4 < 64)
      have e1 := charToSextet_sextetToChar (by omega : a % 4 * 16 < 64)
      simp [encodeB64, decodeB64, e0, e1]
      omega
  | [a, b], h => by
      have ha : a < 256 := h a (by simp)
      have hb : b < 256 := h b (by simp)
      have e0 := charToSextet_sextetToChar (by omega : a / 4 < 64)
      have e1 := charToSextet_sextetToChar (by omega : a % 4 * 16 + b / 16 < 64)
      have e2 := charToSextet_sextetToChar (by omega : b % 16 * 4 < 64)
      have n2 := sextetToChar_ne_pad (by omega : b % 16 * 4 < 64)
      simp [encodeB64, decodeB64, e0, e1, e2, n2]
      omega
  | a :: b :: c :: d :: rest, h => by
      have ha : a < 256 := h a (by simp)
      have hb : b < 256 := h b (by simp)
      have hc : c < 256 := h c (by simp)
      have ih := decodeB64_encodeB64 (d :: rest)
        (fun x hx => h x (by simp at hx ⊢; tauto))
      have e0 := charToSextet_sextetToChar (by omega : a / 4 < 64)
      have e1 := charToSextet_sextetToChar (by omega : a % 4 * 16 + b / 16 < 64)
      have e2 := charToSextet_sextetToChar (by omega : b % 16 * 4 + c / 64 < 64)
      have n2 := sextetToChar_ne_pad (by omega : b % 16 * 4 + c / 64 < 64)
      have e3 := charToSextet_sextetToChar (by omega : c % 64 < 64)
      have n3 := sextetToChar_ne_pad (by omega : c % 64 < 64)
      simp [encodeB64, decodeB64, e0, e1, e2, n2, e3, n3, ih]
      omega
  | [a, b, c], h => by
      have ha : a < 256 := h a (by simp)
      have hb : b < 256 := h b (by simp)
      have hc : c < 256 := h c (by simp)
      have hnil : decodeB64 (encodeB64 []) = some [] := by simp [encodeB64, decodeB64]
      have e0 := charToSextet_sextetToChar (by omega : a / 4 < 64)
      have e1 := charToSextet_sextetToChar (by omega : a % 4 * 16 + b / 16 < 64)
      have e2 := charToSextet_sextetToChar (by omega : b % 16 * 4 + c / 64 < 64)
      have n2 := sextetToChar_ne_pad (by omega : b % 16 * 4 + c / 64 < 64)
      have e3 := charToSextet_sextetToChar (by omega : c % 64 < 64)
      have n3 := sextetToChar_ne_pad (by omega : c % 64 < 64)
      simp [encodeB64, decodeB64, e0, e1, e2, n2, e3, n3, hnil]
      omega

/-! ## Shared characterization lemmas for the callback -/

lemma sgx_callback_ok_iff (md : MakeDecision) (parse : JsonParse)
    (e : rtls_sgx_evidence_t) :
    sgx_callback md parse e = .ok () ↔ allowPathSgx md parse e := by
  unfold sgx_callback allowPathSgx
  cases hmd : md OPA_POLICY_SGX OPA_DATA_SGX (Json.toStr (sgx_input e)) with
  | error s => simp
  | ok res =>
    cases hp : parse res with
    | none => simp [hp]
    | some j =>
      by_cases ha : (j.getField "allow").isTrue = true
      · simp [hp, ha]
      · simp [hp, ha]

lemma csv_callback_ok_iff (md : MakeDecision) (parse : JsonParse)
    (e : rtls_csv_evidence_t) :
    csv_callback md parse e = .ok () ↔ allowPathCsv md parse e := by
  unfold csv_callback allowPathCsv
  cases hmd : md OPA_POLICY_CSV OPA_DATA_CSV (Json.toStr (csv_input e)) with
  | error s => simp
  | ok res =>
    cases hp : parse res with
    | none => simp [hp]
    | some j =>
      by_cases ha : (j.getField "allow").isTrue = true
      · simp [hp, ha]
      · simp [hp, ha]

lemma tag_csv_ne_sgx :
    enclave_evidence_type_t_CSV ≠ enclave_evidence_type_t_SGX_ECDSA := by
  decide

lemma callback_eq_one_iff (md : MakeDecision) (parse : JsonParse)
    (ev : rtls_evidence) :
    callback md parse ev = 1 ↔
      ((ev.type_ = enclave_evidence_type_t_SGX_ECDSA ∧
          allowPathSgx md parse ev.sgx) ∨
       (ev.type_ ≠ enclave_evidence_type_t_SGX_ECDSA ∧
          ev.type_ = enclave_evidence_type_t_CSV ∧
          allowPathCsv md parse ev.csv)) := by
  by_cases t1 : ev.type_ = enclave_evidence_type_t_SGX_ECDSA
  · rw [← sgx_callback_ok_iff md parse ev.sgx]
    cases h : sgx_callback md parse ev.sgx with
    | ok u => cases u; simp [callback, t1, h]
    | error s => simp [callback, t1, h]
  · by_cases t2 : ev.type_ = enclave_evidence_type_t_CSV
    · rw [← csv_callback_ok_iff md parse ev.csv]
      cases h : csv_callback md parse ev.csv with
      | ok u => cases u; simp [callback, t1, t2, h, tag_csv_ne_sgx]
      | error s => simp [callback, t1, t2, h, tag_csv_ne_sgx]
    · simp [callback, t1, t2]

lemma callback_zero_or_one (md : MakeDecision) (parse : JsonParse)
    (ev : rtls_evidence) :
    callback md parse ev = 0 ∨ callback md parse ev = 1 := by
  by_cases t1 : ev.type_ = enclave_evidence_type_t_SGX_ECDSA
  · cases h : sgx_callback md parse ev.sgx with
    | ok u => right; simp [callback, t1, h]
    | error s => left; simp [callback, t1, h]
  · by_cases t2 : ev.type_ = enclave_evidence_type_t_CSV
    · cases h : csv_callback md parse ev.csv with
      | ok u => right; simp [callback, t1, t2, h, tag_csv_ne_sgx]
      | error s => left; simp [callback, t1, t2, h, tag_csv_ne_sgx]
    · left; simp [callback, t1, t2]

lemma callbackT_fst (md : MakeDecision) (parse : JsonParse)
    (ev : rtls_evidence) :
    (callbackT md parse ev).1 = callback md parse ev := by
  by_cases t1 : ev.type_ = enclave_evidence_type_t_SGX_ECDSA
  · simp [callbackT, callback, sgx_callbackT, sgx_callback, countedCall, t1]
  · by_cases t2 : ev.type_ = enclave_evidence_type_t_CSV
    · simp [callbackT, callback, csv_callbackT, csv_callback, countedCall, t1, t2,
        tag_csv_ne_sgx]
    · simp [callbackT, callback, t1, t2]

lemma setOptBuf_default (o : Option (List Nat)) (h : optFits o) :
    setOptBuf (List.replicate confStrCap 0) o = some (bufAfter o) := by
  cases o with
  | none => rfl
  | some s =>
    have hs : s.length ≤ confStrCap := h
    simp only [setOptBuf, bufAfter, writeBuf]
    rw [if_pos (by simpa using hs)]
    rw [List.drop_replicate]

/-! ## The claims -/

/-- Claim C1: for every evidence record whose adapter path yields a
successfully parsed decision document with `allow` equal to `true`, the
verification callback returns the accept signal 1; for every other
outcome at any stage (unsupported type, adapter call failure, JSON
parse failure, `allow` false or missing) it returns the reject signal
0; and the callback returns no value other than 0 or 1. -/
theorem c1_callback_binary_reduction (md : MakeDecision) (parse : JsonParse)
    (ev : rtls_evidence) :
    (callback md parse ev = 1 ↔
      ((ev.type_ = enclave_evidence_type_t_SGX_ECDSA ∧
          allowPathSgx md parse ev.sgx) ∨
       (ev.type_ ≠ enclave_evidence_type_t_SGX_ECDSA ∧
          ev.type_ = enclave_evidence_type_t_CSV ∧
          allowPathCsv md parse ev.csv))) ∧
    (callback md parse ev = 0 ∨ callback md parse ev = 1) :=
  ⟨callback_eq_one_iff md parse ev, callback_zero_or_one md parse ev⟩

/-- Claim C2: for every evidence record whose type tag is neither
SGX-ECDSA nor CSV, the verification callback returns the reject signal
0 and `make_decision` is never invoked (the invocation count of the
instrumented callback is 0). -/
theorem c2_unknown_type_rejects_without_adapter (md : MakeDecision)
    (parse : JsonParse) (ev : rtls_evidence)
    (h1 : ev.type_ ≠ enclave_evidence_type_t_SGX_ECDSA)
    (h2 : ev.type_ ≠ enclave_evidence_type_t_CSV) :
    callbackT md parse ev = (0, 0) := by
  unfold callbackT
  simp [h1, h2]

theorem c2_witness :
    callbackT (fun _ _ _ => Except.error "engine down") (fun _ => none)
      ⟨99, ⟨[], [], 0, 0⟩, ⟨[]⟩⟩ = (0, 0) :=
  c2_unknown_type_rejects_without_adapter _ _ _ (by decide) (by decide)

/-- Claim C3 (divergence witness): with an attestation-type string one
byte longer than the fixed buffer capacity, `RatsTls::new` panics
during `conf.tls_type[..len]` (out-of-range slice index) before any
native call — it does not return a construction error as the spec
requires. -/
theorem c3_overlong_attestation_type_panics :
    newTrace RATS_TLS_ERR_NONE RATS_TLS_ERR_NONE false 0
      (some (List.replicate 33 65)) none none none false
      = (NewResult.panic, []) := by
  decide

/-- Claim C4 (divergence witness): `RatsTls` derives `Clone`, so a
handle can be duplicated; the clone wraps the same native pointer, and
dropping the clone and the original calls `rats_tls_cleanup` twice on
that one native context — not exactly once as the spec requires. -/
theorem c4_clone_yields_double_cleanup :
    cloneRatsTls ⟨5⟩ = (⟨5⟩ : RatsTls) ∧
    (cleanupCallsOnDrop [cloneRatsTls ⟨5⟩, (⟨5⟩ : RatsTls)]).count 5 = 2 := by
  decide

/-- Claim C5: every operation receiving a native error code (`new` with
its two native calls, `negotiate`, `receive`, `transmit`) succeeds
exactly on `RATS_TLS_ERR_NONE` and turns every other code into a
failure carrying that exact code. -/
theorem c5_error_code_mapping (e lenr lent e1 e2 : Nat)
    (server mutualAuth : Bool) (eid : Nat)
    (tls crypto att ver : Option (List Nat)) (c : rats_tls_conf_t)
    (hconf : buildConf server eid tls crypto att ver mutualAuth = some c) :
    (negotiate e = Except.ok () ↔ e = RATS_TLS_ERR_NONE) ∧
    (e ≠ RATS_TLS_ERR_NONE → negotiate e = Except.error e) ∧
    ((∃ n, receive e lenr = Except.ok n) ↔ e = RATS_TLS_ERR_NONE) ∧
    (e ≠ RATS_TLS_ERR_NONE → receive e lenr = Except.error e) ∧
    ((∃ n, transmit e lent = Except.ok n) ↔ e = RATS_TLS_ERR_NONE) ∧
    (e ≠ RATS_TLS_ERR_NONE → transmit e lent = Except.error e) ∧
    ((∃ cc, (newTrace e1 e2 server eid tls crypto att ver mutualAuth).1
        = NewResult.ok cc) ↔
      (e1 = RATS_TLS_ERR_NONE ∧ e2 = RATS_TLS_ERR_NONE)) ∧
    (e1 ≠ RATS_TLS_ERR_NONE →
      (newTrace e1 e2 server eid tls crypto att ver mutualAuth).1
        = NewResult.err e1) ∧
    (e1 = RATS_TLS_ERR_NONE → e2 ≠ RATS_TLS_ERR_NONE →
      (newTrace e1 e2 server eid tls crypto att ver mutualAuth).1
        = NewResult.err e2) := by
  unfold negotiate receive transmit newTrace
  rw [hconf]
  by_cases h : e = RATS_TLS_ERR_NONE <;>
    by_cases h1 : e1 = RATS_TLS_ERR_NONE <;>
    by_cases h2 : e2 = RATS_TLS_ERR_NONE <;>
    simp [h, h1, h2]

theorem c5_witness :
    buildConf false 0 none none none none false = some
      (rats_tls_conf_t.mk RATS_TLS_API_VERSION_DEFAULT RATS_TLS_LOG_LEVEL_DEBUG
        (List.replicate 32 0) (List.replicate 32 0)
        (List.replicate 32 0) (List.replicate 32 0) 0 0 0) ∧
    ((negotiate 7 = Except.ok () ↔ 7 = RATS_TLS_ERR_NONE) ∧
     (7 ≠ RATS_TLS_ERR_NONE → negotiate 7 = Except.error 7) ∧
     ((∃ n, receive 7 5 = Except.ok n) ↔ 7 = RATS_TLS_ERR_NONE) ∧
     (7 ≠ RATS_TLS_ERR_NONE → receive 7 5 = Except.error 7) ∧
     ((∃ n, transmit 7 6 = Except.ok n) ↔ 7 = RATS_TLS_ERR_NONE) ∧
     (7 ≠ RATS_TLS_ERR_NONE → transmit 7 6 = Except.error 7) ∧
     ((∃ cc, (newTrace 0 0 false 0 none none none none false).1
         = NewResult.ok cc) ↔
       ((0 : Nat) = RATS_TLS_ERR_NONE ∧ (0 : Nat) = RATS_TLS_ERR_NONE)) ∧
     ((0 : Nat) ≠ RATS_TLS_ERR_NONE →
       (newTrace 0 0 false 0 none none none none false).1
         = NewResult.err 0) ∧
     ((0 : Nat) = RATS_TLS_ERR_NONE → (0 : Nat) ≠ RATS_TLS_ERR_NONE →
       (newTrace 0 0 false 0 none none none none false).1
         = NewResult.err 0)) :=
  ⟨by rfl, c5_error_code_mapping 7 5 6 0 0 false false 0
    none none none none
    (rats_tls_conf_t.mk RATS_TLS_API_VERSION_DEFAULT RATS_TLS_LOG_LEVEL_DEBUG
      (List.replicate 32 0) (List.replicate 32 0)
      (List.replicate 32 0) (List.replicate 32 0) 0 0 0) (by rfl)⟩

/-- Claim C6: whenever the response the decision engine actually
produced on this record's verification path fails to parse or parses to
a document whose `allow` field is missing or not the boolean `true`,
the callback returns the reject signal 0 — a malformed or missing
`allow` is never interpreted as allow.  The hypothesis constrains only
the engine query the record's path issues; the oracle's answers to
queries that path never makes are unconstrained. -/
theorem c6_no_accept_on_bad_response (md : MakeDecision) (parse : JsonParse)
    (ev : rtls_evidence)
    (hbad : ∀ r, pathEngineResponse md ev = Except.ok r →
      ∀ j, parse r = some j → (j.getField "allow").isTrue = false) :
    callback md parse ev = 0 := by
  rcases callback_zero_or_one md parse ev with h | h
  · exact h
  · exfalso
    rcases (callback_eq_one_iff md parse ev).mp h with ⟨t1, hA⟩ | ⟨t1, t2, hA⟩
    · unfold allowPathSgx at hA
      obtain ⟨r, j, hmd, hp, ha⟩ := hA
      have hq : pathEngineResponse md ev = Except.ok r := by
        unfold pathEngineResponse
        rw [if_pos t1]
        exact hmd
      have := hbad r hq j hp
      simp [ha] at this
    · unfold allowPathCsv at hA
      obtain ⟨r, j, hmd, hp, ha⟩ := hA
      have hq : pathEngineResponse md ev = Except.ok r := by
        unfold pathEngineResponse
        rw [if_neg t1, if_pos t2]
        exact hmd
      have := hbad r hq j hp
      simp [ha] at this

theorem c6_witness :
    callback (fun _ _ _ => Except.ok "not json") (fun _ => none)
      ⟨0, ⟨[], [], 0, 0⟩, ⟨[]⟩⟩ = 0 :=
  c6_no_accept_on_bad_response _ _ _ (fun _ _ j hj => by cases hj)

/-- Claim C7: for every supported evidence value, building the Policy
Input Document twice from the same evidence yields the same document —
the conversion (base64 of the 32-byte measurements plus pass-through of
the integer fields) is a pure, deterministic function of the
evidence. -/
theorem c7_input_document_deterministic (E1 E2 : SupportedEvidence)
    (h : E1 = E2) : buildInput E1 = buildInput E2 := by
  rw [h]

theorem c7_witness :
    SupportedEvidence.csv ⟨List.replicate 32 7⟩
        = SupportedEvidence.csv ⟨List.replicate 32 7⟩ ∧
    buildInput (SupportedEvidence.csv ⟨List.replicate 32 7⟩)
        = buildInput (SupportedEvidence.csv ⟨List.replicate 32 7⟩) :=
  ⟨rfl, c7_input_document_deterministic _ _ rfl⟩

/-- Claim C8: for every 32-byte measurement, base64-encoding it and
decoding the result yields exactly the original 32 bytes. -/
theorem c8_base64_roundtrip (m : List Nat) (hlen : m.length = 32)
    (hb : ∀ x ∈ m, x < 256) :
    decodeB64str (encodeB64str m) = some m :=
  decodeB64_encodeB64 m hb

theorem c8_witness :
    (List.replicate 32 0).length = 32 ∧
    (∀ x ∈ List.replicate 32 (0 : Nat), x < 256) ∧
    decodeB64str (encodeB64str (List.replicate 32 0))
      = some (List.replicate 32 0) :=
  ⟨by decide, by decide, c8_base64_roundtrip _ (by decide) (by decide)⟩

/-- Claim C9: when `rats_tls_init` reports no error but
`rats_tls_set_verification_callback` reports a non-NONE code,
`RatsTls::new` returns that exact code and its native-call trace never
contains `rats_tls_cleanup` — the initialized native context is leaked
on this error path. -/
theorem c9_setcb_failure_leaks_context (e2 : Nat)
    (server mutualAuth : Bool) (eid : Nat)
    (tls crypto att ver : Option (List Nat)) (c : rats_tls_conf_t)
    (hconf : buildConf server eid tls crypto att ver mutualAuth = some c)
    (h2 : e2 ≠ RATS_TLS_ERR_NONE) :
    newTrace RATS_TLS_ERR_NONE e2 server eid tls crypto att ver mutualAuth
      = (NewResult.err e2, [NativeCall.init, NativeCall.set_cb]) ∧
    NativeCall.cleanup ∉
      (newTrace RATS_TLS_ERR_NONE e2 server eid tls crypto att ver
        mutualAuth).2 := by
  have hmain : newTrace RATS_TLS_ERR_NONE e2 server eid tls crypto att ver
      mutualAuth = (NewResult.err e2, [NativeCall.init, NativeCall.set_cb]) := by
    unfold newTrace
    rw [hconf]
    simp [h2]
  exact ⟨hmain, by rw [hmain]; simp⟩

theorem c9_witness :
    newTrace RATS_TLS_ERR_NONE 7 false 0 none none none none false
      = (NewResult.err 7, [NativeCall.init, NativeCall.set_cb]) ∧
    NativeCall.cleanup ∉
      (newTrace RATS_TLS_ERR_NONE 7 false 0 none none none none false).2 :=
  c9_setcb_failure_leaks_context 7 false false 0 none none none none
    (rats_tls_conf_t.mk RATS_TLS_API_VERSION_DEFAULT RATS_TLS_LOG_LEVEL_DEBUG
      (List.replicate 32 0) (List.replicate 32 0)
      (List.replicate 32 0) (List.replicate 32 0) 0 0 0) (by rfl) (by decide)

/-- Claim C10: in `RatsTls::new`, an absent optional string leaves its
fixed-capacity buffer all-zero; a present string that fits overwrites
only its first `length` bytes and leaves the zero tail; and the only
other fields that change from their defaults are `api_version`,
`log_level`, `cert_algo`, `enclave_id` and `flags`, set to exactly the
source's values. -/
theorem c10_new_config_frame (server mutualAuth : Bool) (eid : Nat)
    (tls crypto att ver : Option (List Nat))
    (h1 : optFits tls) (h2 : optFits crypto)
    (h3 : optFits att) (h4 : optFits ver) :
    buildConf server eid tls crypto att ver mutualAuth = some
      ⟨RATS_TLS_API_VERSION_DEFAULT, RATS_TLS_LOG_LEVEL_DEBUG,
        bufAfter tls, bufAfter crypto, bufAfter att, bufAfter ver,
        RATS_TLS_CERT_ALGO_DEFAULT, eid,
        (if mutualAuth then RATS_TLS_CONF_FLAGS_MUTUAL else 0) +
          (if server then RATS_TLS_CONF_FLAGS_SERVER else 0)⟩ := by
  unfold buildConf
  rw [show defaultConf.tls_type = List.replicate confStrCap 0 from rfl,
    show defaultConf.crypto_type = List.replicate confStrCap 0 from rfl,
    show defaultConf.attester_type = List.replicate confStrCap 0 from rfl,
    show defaultConf.verifier_type = List.replicate confStrCap 0 from rfl]
  rw [setOptBuf_default tls h1, setOptBuf_default crypto h2,
    setOptBuf_default att h3, setOptBuf_default ver h4]
  cases server <;> cases mutualAuth <;> rfl

theorem c10_witness :
    optFits (some [65, 66]) ∧ optFits (none : Option (List Nat)) ∧
    buildConf true 9 (some [65, 66]) none none none true = some
      ⟨RATS_TLS_API_VERSION_DEFAULT, RATS_TLS_LOG_LEVEL_DEBUG,
        bufAfter (some [65, 66]), bufAfter none, bufAfter none, bufAfter none,
        RATS_TLS_CERT_ALGO_DEFAULT, 9,
        (if true then RATS_TLS_CONF_FLAGS_MUTUAL else 0) +
          (if true then RATS_TLS_CONF_FLAGS_SERVER else 0)⟩ :=
  ⟨(by decide : ([65, 66] : List Nat).length ≤ confStrCap), trivial,
    c10_new_config_frame true true 9 (some [65, 66]) none none none
      (by decide : ([65, 66] : List Nat).length ≤ confStrCap)
      trivial trivial trivial⟩
